import Mathlib

/-!
# A shallow embedding of `c_result.h`

This file embeds the single-header C library `c_result.h` (the `Result`
tagged-union type and its operations) in Lean 4 and proves properties of
the embedding.

Modelling conventions, chosen to mirror the C source faithfully:

* Pointers are modelled as natural numbers (addresses); `0` is `NULL`.
* The heap is explicit: a finite association list from addresses to
  buffer contents (C strings, modelled as Lean `String`s without interior
  NUL bytes), plus an append-only log of every call to `free` (its
  argument, including `NULL`) and of every invocation of a custom
  destructor (destructor identifier paired with its `data` argument).
  These logs let theorems state "deallocates exactly once" and "invokes
  the destructor exactly once".
* `malloc` is modelled by handing out the next fresh address; whether a
  given allocation succeeds is an explicit `Bool` parameter of the
  operations that allocate (only `make_error` does), so allocation
  failure can be stated.
* The C `union` inside `Result` is modelled by an inductive recording
  which member was last stored.  Reading the member that was stored
  yields its value.  The members `message` (`char *`), `pointer`
  (`void *`), `string` (`char *`) and `custom.data` (`void *`, at offset
  0 of the `custom` struct) all occupy offset 0 of the union with a
  pointer representation that C guarantees to be interchangeable, so
  reading any of them after one of them was stored yields the stored
  address.  Any other cross-member read (e.g. reading `int_val` after a
  pointer was stored) has a value the C standard does not determine, and
  is modelled as `none`.
* Scalar payloads (`int`, `long`, `char`, the fixed-width and unsigned
  kinds, `size_t`) are modelled as unbounded `Int`.  The library only
  stores and returns them, never computes with them, so widths and
  signedness are irrelevant to every property proved here.  `float` and
  `double` payloads are likewise modelled by their bit patterns as `Nat`
  (again the library only stores and returns them); the bit pattern of
  `0.0f` and `0.0` is `0`.
* Functions whose C execution can hit undefined behaviour (freeing an
  unallocated address, reading an unspecified union member in a branch
  condition) return `Option`: `none` means the execution is not defined
  by the model.
-/

namespace CResult

/-- `#define SUCCESS 0` -/
def SUCCESS : Int := 0

/-- `#define ERR_OUT_OF_MEMORY (-2)` -/
def ERR_OUT_OF_MEMORY : Int := -2

/-- `#define ERR_INVALID_STATE (-11)` -/
def ERR_INVALID_STATE : Int := -11

/-- The heap: allocated blocks, the next fresh address `malloc` would
return, and observation logs for `free` calls and destructor
invocations. -/
structure Heap where
  nextAddr : Nat
  mem : List (Nat × String)
  freeLog : List Nat
  dtorLog : List (Nat × Nat)
deriving DecidableEq, Repr

/-- Read the buffer at address `p` (the first binding for `p`). -/
def Heap.load (h : Heap) (p : Nat) : Option String :=
  (h.mem.find? (fun e => e.1 == p)).map (fun e => e.2)

/-- Overwrite the contents of the allocated block at `p`; `none` if `p`
is not allocated (such a write would be undefined behaviour). -/
def Heap.store (h : Heap) (p : Nat) (s : String) : Option Heap :=
  if h.mem.any (fun e => e.1 == p) then
    some { h with mem := h.mem.map (fun e => if e.1 == p then (e.1, s) else e) }
  else none

/-- `free(p)`.  `free(NULL)` is a no-op (but the call is logged);
freeing an allocated block removes it and logs the call; freeing
anything else is undefined behaviour (`none`). -/
def Heap.free (h : Heap) (p : Nat) : Option Heap :=
  if p = 0 then some { h with freeLog := h.freeLog ++ [p] }
  else if h.mem.any (fun e => e.1 == p) then
    some { h with mem := h.mem.filter (fun e => e.1 != p),
                  freeLog := h.freeLog ++ [p] }
  else none

/-- Well-formedness of a heap: the zero address is never allocated and
every allocated address is below the allocation frontier, so a fresh
address is distinct from every allocated one. -/
def Heap.WF (h : Heap) : Bool :=
  decide (0 < h.nextAddr) &&
    h.mem.all (fun e => decide (0 < e.1) && decide (e.1 < h.nextAddr))

/-- The `ResultValueType` enum of `c_result.h`. -/
inductive ResultValueType
  | RESULT_TYPE_NONE
  | RESULT_TYPE_POINTER
  | RESULT_TYPE_STRING
  | RESULT_TYPE_INT
  | RESULT_TYPE_LONG
  | RESULT_TYPE_FLOAT
  | RESULT_TYPE_DOUBLE
  | RESULT_TYPE_BOOL
  | RESULT_TYPE_CHAR
  | RESULT_TYPE_SHORT
  | RESULT_TYPE_UINT
  | RESULT_TYPE_ULONG
  | RESULT_TYPE_SIZE_T
  | RESULT_TYPE_INT8
  | RESULT_TYPE_UINT8
  | RESULT_TYPE_INT16
  | RESULT_TYPE_UINT16
  | RESULT_TYPE_INT32
  | RESULT_TYPE_UINT32
  | RESULT_TYPE_INT64
  | RESULT_TYPE_UINT64
  | RESULT_TYPE_CUSTOM
deriving DecidableEq, Repr

open ResultValueType

/-- The anonymous `data` union of the C `Result` struct, modelled by the
member that was last stored.  `message`, `pointer`, `string` hold an
address; `custom` holds the `data` address and an optional destructor
identifier; scalar members hold their value (see the module docstring
for the scalar conventions). -/
inductive UnionData
  | message (p : Nat)
  | pointer (p : Nat)
  | string (p : Nat)
  | int_val (v : Int)
  | long_val (v : Int)
  | float_val (bits : Nat)
  | double_val (bits : Nat)
  | bool_val (v : Bool)
  | char_val (v : Int)
  | short_val (v : Int)
  | uint_val (v : Int)
  | ulong_val (v : Int)
  | size_val (v : Int)
  | int8_val (v : Int)
  | uint8_val (v : Int)
  | int16_val (v : Int)
  | uint16_val (v : Int)
  | int32_val (v : Int)
  | uint32_val (v : Int)
  | int64_val (v : Int)
  | uint64_val (v : Int)
  | custom (data : Nat) (destructor : Option Nat)
deriving DecidableEq, Repr

/-- Read any of the pointer-representation members at offset 0 of the
union (`message`, `pointer`, `string`, `custom.data`).  C guarantees
these reads see the stored address when any one of them was stored;
reading them after a scalar member was stored is not determined. -/
def UnionData.readPointerLike : UnionData → Option Nat
  | .message p => some p
  | .pointer p => some p
  | .string p => some p
  | .custom d _ => some d
  | _ => none

/-- Read the `int_val` member. -/
def UnionData.read_int_val : UnionData → Option Int
  | .int_val v => some v
  | _ => none

/-- Read the `long_val` member. -/
def UnionData.read_long_val : UnionData → Option Int
  | .long_val v => some v
  | _ => none

/-- Read the `float_val` member (as its bit pattern). -/
def UnionData.read_float_val : UnionData → Option Nat
  | .float_val v => some v
  | _ => none

/-- Read the `double_val` member (as its bit pattern). -/
def UnionData.read_double_val : UnionData → Option Nat
  | .double_val v => some v
  | _ => none

/-- Read the `bool_val` member. -/
def UnionData.read_bool_val : UnionData → Option Bool
  | .bool_val v => some v
  | _ => none

/-- Read the `char_val` member. -/
def UnionData.read_char_val : UnionData → Option Int
  | .char_val v => some v
  | _ => none

/-- Read the `short_val` member. -/
def UnionData.read_short_val : UnionData → Option Int
  | .short_val v => some v
  | _ => none

/-- Read the `uint_val` member. -/
def UnionData.read_uint_val : UnionData → Option Int
  | .uint_val v => some v
  | _ => none

/-- Read the `ulong_val` member. -/
def UnionData.read_ulong_val : UnionData → Option Int
  | .ulong_val v => some v
  | _ => none

/-- Read the `size_val` member. -/
def UnionData.read_size_val : UnionData → Option Int
  | .size_val v => some v
  | _ => none

/-- Read the `int8_val` member. -/
def UnionData.read_int8_val : UnionData → Option Int
  | .int8_val v => some v
  | _ => none

/-- Read the `uint8_val` member. -/
def UnionData.read_uint8_val : UnionData → Option Int
  | .uint8_val v => some v
  | _ => none

/-- Read the `int16_val` member. -/
def UnionData.read_int16_val : UnionData → Option Int
  | .int16_val v => some v
  | _ => none

/-- Read the `uint16_val` member. -/
def UnionData.read_uint16_val : UnionData → Option Int
  | .uint16_val v => some v
  | _ => none

/-- Read the `int32_val` member. -/
def UnionData.read_int32_val : UnionData → Option Int
  | .int32_val v => some v
  | _ => none

/-- Read the `uint32_val` member. -/
def UnionData.read_uint32_val : UnionData → Option Int
  | .uint32_val v => some v
  | _ => none

/-- Read the `int64_val` member. -/
def UnionData.read_int64_val : UnionData → Option Int
  | .int64_val v => some v
  | _ => none

/-- Read the `uint64_val` member. -/
def UnionData.read_uint64_val : UnionData → Option Int
  | .uint64_val v => some v
  | _ => none

/-- The C `Result` struct. -/
structure Result where
  code : Int
  value_type : ResultValueType
  owns_memory : Bool
  data : UnionData
deriving DecidableEq, Repr

/-- `is_result_success`: `res.code == SUCCESS`. -/
def is_result_success (res : Result) : Bool :=
  res.code == SUCCESS

/-- `make_error(code, message)`.  `message` is an address (0 = absent);
`allocOk` says whether the `malloc` for the message copy succeeds.  The
struct is zero-initialised (so the `message` member starts as `NULL`),
the code and `RESULT_TYPE_NONE` tag are stored, and `owns_memory` is set
to `true`.  With a message present, its contents are read (undefined if
the address is not a readable buffer), and either copied into a fresh
allocation or — when allocation fails — the code is overwritten with
`ERR_OUT_OF_MEMORY` and the `message` member stays `NULL`. -/
def make_error (h : Heap) (allocOk : Bool) (code : Int) (message : Nat) :
    Option (Heap × Result) :=
  if message = 0 then
    some (h, { code := code, value_type := RESULT_TYPE_NONE,
               owns_memory := true, data := UnionData.message 0 })
  else
    match h.load message with
    | none => none
    | some m =>
      if allocOk then
        some ({ h with nextAddr := h.nextAddr + 1, mem := (h.nextAddr, m) :: h.mem },
              { code := code, value_type := RESULT_TYPE_NONE,
                owns_memory := true, data := UnionData.message h.nextAddr })
      else
        some (h, { code := ERR_OUT_OF_MEMORY, value_type := RESULT_TYPE_NONE,
                   owns_memory := true, data := UnionData.message 0 })

/-- `make_success_ptr(value, ownership)`. -/
def make_success_ptr (value : Nat) (ownership : Bool) : Result :=
  { code := SUCCESS, value_type := RESULT_TYPE_POINTER,
    owns_memory := ownership, data := UnionData.pointer value }

/-- `make_success_string(value, ownership)`. -/
def make_success_string (value : Nat) (ownership : Bool) : Result :=
  { code := SUCCESS, value_type := RESULT_TYPE_STRING,
    owns_memory := ownership, data := UnionData.string value }

/-- `make_success_int(value)`. -/
def make_success_int (value : Int) : Result :=
  { code := SUCCESS, value_type := RESULT_TYPE_INT,
    owns_memory := false, data := UnionData.int_val value }

/-- `make_success_long(value)`. -/
def make_success_long (value : Int) : Result :=
  { code := SUCCESS, value_type := RESULT_TYPE_LONG,
    owns_memory := false, data := UnionData.long_val value }

/-- `make_success_float(value)` (payload by bit pattern). -/
def make_success_float (value : Nat) : Result :=
  { code := SUCCESS, value_type := RESULT_TYPE_FLOAT,
    owns_memory := false, data := UnionData.float_val value }

/-- `make_success_double(value)` (payload by bit pattern). -/
def make_success_double (value : Nat) : Result :=
  { code := SUCCESS, value_type := RESULT_TYPE_DOUBLE,
    owns_memory := false, data := UnionData.double_val value }

/-- `make_success_bool(value)`. -/
def make_success_bool (value : Bool) : Result :=
  { code := SUCCESS, value_type := RESULT_TYPE_BOOL,
    owns_memory := false, data := UnionData.bool_val value }

/-- `make_success_char(value)`. -/
def make_success_char (value : Int) : Result :=
  { code := SUCCESS, value_type := RESULT_TYPE_CHAR,
    owns_memory := false, data := UnionData.char_val value }

/-- `make_success_short(value)`. -/
def make_success_short (value : Int) : Result :=
  { code := SUCCESS, value_type := RESULT_TYPE_SHORT,
    owns_memory := false, data := UnionData.short_val value }

/-- `make_success_uint(value)`. -/
def make_success_uint (value : Int) : Result :=
  { code := SUCCESS, value_type := RESULT_TYPE_UINT,
    owns_memory := false, data := UnionData.uint_val value }

/-- `make_success_ulong(value)`. -/
def make_success_ulong (value : Int) : Result :=
  { code := SUCCESS, value_type := RESULT_TYPE_ULONG,
    owns_memory := false, data := UnionData.ulong_val value }

/-- `make_success_size_t(value)`. -/
def make_success_size_t (value : Int) : Result :=
  { code := SUCCESS, value_type := RESULT_TYPE_SIZE_T,
    owns_memory := false, data := UnionData.size_val value }

/-- `make_success_int8(value)`. -/
def make_success_int8 (value : Int) : Result :=
  { code := SUCCESS, value_type := RESULT_TYPE_INT8,
    owns_memory := false, data := UnionData.int8_val value }

/-- `make_success_uint8(value)`. -/
def make_success_uint8 (value : Int) : Result :=
  { code := SUCCESS, value_type := RESULT_TYPE_UINT8,
    owns_memory := false, data := UnionData.uint8_val value }

/-- `make_success_int16(value)`. -/
def make_success_int16 (value : Int) : Result :=
  { code := SUCCESS, value_type := RESULT_TYPE_INT16,
    owns_memory := false, data := UnionData.int16_val value }

/-- `make_success_uint16(value)`. -/
def make_success_uint16 (value : Int) : Result :=
  { code := SUCCESS, value_type := RESULT_TYPE_UINT16,
    owns_memory := false, data := UnionData.uint16_val value }

/-- `make_success_int32(value)`. -/
def make_success_int32 (value : Int) : Result :=
  { code := SUCCESS, value_type := RESULT_TYPE_INT32,
    owns_memory := false, data := UnionData.int32_val value }

/-- `make_success_uint32(value)`. -/
def make_success_uint32 (value : Int) : Result :=
  { code := SUCCESS, value_type := RESULT_TYPE_UINT32,
    owns_memory := false, data := UnionData.uint32_val value }

/-- `make_success_int64(value)`. -/
def make_success_int64 (value : Int) : Result :=
  { code := SUCCESS, value_type := RESULT_TYPE_INT64,
    owns_memory := false, data := UnionData.int64_val value }

/-- `make_success_uint64(value)`. -/
def make_success_uint64 (value : Int) : Result :=
  { code := SUCCESS, value_type := RESULT_TYPE_UINT64,
    owns_memory := false, data := UnionData.uint64_val value }

/-- `make_success_custom(data, destructor, owns_memory)`. -/
def make_success_custom (data : Nat) (destructor : Option Nat)
    (owns_memory : Bool) : Result :=
  { code := SUCCESS, value_type := RESULT_TYPE_CUSTOM,
    owns_memory := owns_memory, data := UnionData.custom data destructor }

/-- The cleanup phase of `free_result` (everything before the two final
assignments): on a success that owns memory, switch on the value type and
free the pointer/string payload, or run the custom destructor (falling
back to `free` when no destructor was supplied); otherwise, if the Result
owns memory and the `message` member is non-`NULL`, free the message
buffer.  Scalar value types fall into the switch's `default` and free
nothing. -/
def free_result_cleanup (h : Heap) (result : Result) : Option Heap :=
  if is_result_success result && result.owns_memory then
    match result.value_type with
    | RESULT_TYPE_POINTER =>
      match result.data.readPointerLike with
      | some p => h.free p
      | none => none
    | RESULT_TYPE_STRING =>
      match result.data.readPointerLike with
      | some p => h.free p
      | none => none
    | RESULT_TYPE_CUSTOM =>
      match result.data with
      | UnionData.custom d dtor =>
        match dtor with
        | some f => some { h with dtorLog := h.dtorLog ++ [(f, d)] }
        | none => h.free d
      | _ => none
    | _ => some h
  else if result.owns_memory then
    match result.data.readPointerLike with
    | some 0 => some h
    | some p => h.free p
    | none => none
  else some h

/-- `free_result`: perform the cleanup phase, then unconditionally mark
the Result terminal: `code = ERR_INVALID_STATE`, `owns_memory = false`
(the tag and union contents are left as they were). -/
def free_result (h : Heap) (result : Result) : Option (Heap × Result) :=
  (free_result_cleanup h result).map
    (fun h2 => (h2, { result with code := ERR_INVALID_STATE, owns_memory := false }))

/-- `result_get_error_message`: the sentinel for a success Result or a
`NULL` message member, the pointed-to buffer contents otherwise. -/
def result_get_error_message (h : Heap) (result : Result) : Option String :=
  if is_result_success result then some "No error message"
  else
    match result.data.readPointerLike with
    | none => none
    | some 0 => some "No error message"
    | some p => h.load p

/-- `result_owns_memory`. -/
def result_owns_memory (result : Result) : Bool :=
  result.owns_memory

/-- `result_transfer_ownership`: sets the `owns_memory` field and
touches nothing else. -/
def result_transfer_ownership (result : Result) (t : Bool) : Result :=
  { result with owns_memory := t }

/-- The `ACCESS_RESULT(result, type_enum, member, default_val)` macro
(the shape shared by the `DEBUG` accessors, minus the diagnostic
`fprintf`): the member is read only when the Result is a success *and*
its stored tag equals `type_enum`; otherwise the default is returned. -/
def ACCESS_RESULT {α : Type} (result : Result) (type_enum : ResultValueType)
    (member : UnionData → Option α) (default_val : α) : Option α :=
  if is_result_success result = true ∧ result.value_type = type_enum then
    member result.data
  else some default_val

/-- Non-`DEBUG` `access_result_ptr`: checks only `is_result_success`. -/
def access_result_ptr (result : Result) : Option Nat :=
  if is_result_success result then result.data.readPointerLike else some 0

/-- Non-`DEBUG` `access_result_string`. -/
def access_result_string (result : Result) : Option Nat :=
  if is_result_success result then result.data.readPointerLike else some 0

/-- Non-`DEBUG` `access_result_int`. -/
def access_result_int (result : Result) : Option Int :=
  if is_result_success result then result.data.read_int_val else some 0

/-- Non-`DEBUG` `access_result_long`. -/
def access_result_long (result : Result) : Option Int :=
  if is_result_success result then result.data.read_long_val else some 0

/-- Non-`DEBUG` `access_result_float` (default `0.0f`, bit pattern 0). -/
def access_result_float (result : Result) : Option Nat :=
  if is_result_success result then result.data.read_float_val else some 0

/-- Non-`DEBUG` `access_result_double` (default `0.0`, bit pattern 0). -/
def access_result_double (result : Result) : Option Nat :=
  if is_result_success result then result.data.read_double_val else some 0

/-- Non-`DEBUG` `access_result_bool`. -/
def access_result_bool (result : Result) : Option Bool :=
  if is_result_success result then result.data.read_bool_val else some false

/-- Non-`DEBUG` `access_result_char` (default `'\0'`). -/
def access_result_char (result : Result) : Option Int :=
  if is_result_success result then result.data.read_char_val else some 0

/-- Non-`DEBUG` `access_result_short`. -/
def access_result_short (result : Result) : Option Int :=
  if is_result_success result then result.data.read_short_val else some 0

/-- Non-`DEBUG` `access_result_uint`. -/
def access_result_uint (result : Result) : Option Int :=
  if is_result_success result then result.data.read_uint_val else some 0

/-- Non-`DEBUG` `access_result_ulong`. -/
def access_result_ulong (result : Result) : Option Int :=
  if is_result_success result then result.data.read_ulong_val else some 0

/-- Non-`DEBUG` `access_result_size_t`. -/
def access_result_size_t (result : Result) : Option Int :=
  if is_result_success result then result.data.read_size_val else some 0

/-- Non-`DEBUG` `access_result_int8`. -/
def access_result_int8 (result : Result) : Option Int :=
  if is_result_success result then result.data.read_int8_val else some 0

/-- Non-`DEBUG` `access_result_uint8`. -/
def access_result_uint8 (result : Result) : Option Int :=
  if is_result_success result then result.data.read_uint8_val else some 0

/-- Non-`DEBUG` `access_result_int16`. -/
def access_result_int16 (result : Result) : Option Int :=
  if is_result_success result then result.data.read_int16_val else some 0

/-- Non-`DEBUG` `access_result_uint16`. -/
def access_result_uint16 (result : Result) : Option Int :=
  if is_result_success result then result.data.read_uint16_val else some 0

/-- Non-`DEBUG` `access_result_int32`. -/
def access_result_int32 (result : Result) : Option Int :=
  if is_result_success result then result.data.read_int32_val else some 0

/-- Non-`DEBUG` `access_result_uint32`. -/
def access_result_uint32 (result : Result) : Option Int :=
  if is_result_success result then result.data.read_uint32_val else some 0

/-- Non-`DEBUG` `access_result_int64`. -/
def access_result_int64 (result : Result) : Option Int :=
  if is_result_success result then result.data.read_int64_val else some 0

/-- Non-`DEBUG` `access_result_uint64`. -/
def access_result_uint64 (result : Result) : Option Int :=
  if is_result_success result then result.data.read_uint64_val else some 0

/-- Non-`DEBUG` `access_result_custom` (reads `custom.data`, a pointer
at offset 0 of the union). -/
def access_result_custom (result : Result) : Option Nat :=
  if is_result_success result then result.data.readPointerLike else some 0

/-! ## Heap lemmas -/

/-- `find?` is unchanged by filtering out only elements the predicate
rejects. -/
theorem find?_filter_of_imp (l : List (Nat × String)) (p keep : Nat × String → Bool)
    (hpk : ∀ e, p e = true → keep e = true) :
    (l.filter keep).find? p = l.find? p := by
  induction l with
  | nil => rfl
  | cons e es ih =>
    cases hk : keep e with
    | true =>
      cases hp : p e with
      | true => simp [List.filter_cons, List.find?_cons, hk, hp]
      | false => simp [List.filter_cons, List.find?_cons, hk, hp, ih]
    | false =>
      have hp : p e = false := by
        cases hpe : p e with
        | true => exact absurd (hpk e hpe) (by simp [hk])
        | false => rfl
      simp [List.filter_cons, List.find?_cons, hk, hp, ih]

/-- `find?` for a key `q` is unchanged by a store at a different key
`a` (the store rewrites values but keeps every key). -/
theorem find?_map_store (l : List (Nat × String)) (a q : Nat) (s : String) (hq : q ≠ a) :
    ((l.map (fun e => if e.1 == a then (e.1, s) else e)).find? (fun e => e.1 == q)) =
      l.find? (fun e => e.1 == q) := by
  induction l with
  | nil => rfl
  | cons e es ih =>
    simp only [List.map_cons]
    have hfst : (if e.1 == a then (e.1, s) else e).1 = e.1 := by
      cases ha : (e.1 == a) with
      | true => simp [ha]
      | false => simp [ha]
    cases hq2 : (e.1 == q) with
    | true =>
      have he : e.1 = q := by simpa using hq2
      have ha : (e.1 == a) = false := by simp [he, hq]
      simp [List.find?_cons, ha, hq2]
    | false =>
      have hpred : ((if e.1 == a then (e.1, s) else e).1 == q) = false := by
        rw [hfst]; exact hq2
      simp only [List.find?_cons, hpred, hq2, cond_false]
      exact ih

/-- Loading an address other than the stored-to one is unchanged. -/
theorem Heap.load_store_of_ne {h h2 : Heap} {a q : Nat} {s : String}
    (hst : h.store a s = some h2) (hq : q ≠ a) : h2.load q = h.load q := by
  unfold Heap.store at hst
  split at hst
  · injection hst with hst
    subst hst
    unfold Heap.load
    rw [find?_map_store _ _ _ _ hq]
  · cases hst

/-- Loading an address other than the freed one is unchanged. -/
theorem Heap.load_free_of_ne {h h2 : Heap} {a q : Nat}
    (hfr : h.free a = some h2) (hq : q ≠ a) : h2.load q = h.load q := by
  unfold Heap.free at hfr
  split at hfr
  · injection hfr with hfr
    subst hfr
    rfl
  · split at hfr
    · injection hfr with hfr
      subst hfr
      unfold Heap.load
      rw [find?_filter_of_imp]
      intro e hpe
      have he : e.1 = q := by simpa using hpe
      simp [he, hq]
    · cases hfr

/-- In a well-formed heap, every loadable address is positive and below
the allocation frontier. -/
theorem Heap.load_bounds_of_WF {h : Heap} {a : Nat} {m : String}
    (hwf : h.WF = true) (hl : h.load a = some m) : 0 < a ∧ a < h.nextAddr := by
  unfold Heap.load at hl
  cases hfind : h.mem.find? (fun e => e.1 == a) with
  | none => rw [hfind] at hl; cases hl
  | some e =>
    have hpe := List.find?_some hfind
    have hea : e.1 = a := by simpa using hpe
    have hmem : e ∈ h.mem := List.mem_of_find?_eq_some hfind
    unfold Heap.WF at hwf
    rw [Bool.and_eq_true] at hwf
    have hall := (List.all_eq_true.mp hwf.2) e hmem
    rw [Bool.and_eq_true, decide_eq_true_eq, decide_eq_true_eq] at hall
    exact ⟨hea ▸ hall.1, hea ▸ hall.2⟩

/-- In a well-formed heap the allocation frontier is positive. -/
theorem Heap.nextAddr_pos_of_WF {h : Heap} (hwf : h.WF = true) : 0 < h.nextAddr := by
  unfold Heap.WF at hwf
  rw [Bool.and_eq_true, decide_eq_true_eq] at hwf
  exact hwf.1

/-- An allocated address can be loaded after being present in `mem`,
so `free` on it succeeds, removes it, and logs exactly one call. -/
theorem Heap.free_of_load {h : Heap} {a : Nat} {m : String}
    (ha : a ≠ 0) (hl : h.load a = some m) :
    h.free a =
      some { nextAddr := h.nextAddr, mem := h.mem.filter (fun e => e.1 != a),
             freeLog := h.freeLog ++ [a], dtorLog := h.dtorLog } := by
  unfold Heap.load at hl
  cases hfind : h.mem.find? (fun e => e.1 == a) with
  | none => rw [hfind] at hl; cases hl
  | some e =>
    have hany : h.mem.any (fun e => e.1 == a) = true := by
      rw [List.any_eq_true]
      exact ⟨e, List.mem_of_find?_eq_some hfind, by simpa using List.find?_some hfind⟩
    unfold Heap.free
    rw [if_neg ha, if_pos hany]

/-- After freeing an address, looking it up yields nothing. -/
theorem find?_filter_self (l : List (Nat × String)) (a : Nat) :
    (l.filter (fun e => e.1 != a)).find? (fun e => e.1 == a) = none := by
  rw [List.find?_eq_none]
  intro e he
  have hkeep : (e.1 != a) = true := (List.mem_filter.mp he).2
  simp only [bne_iff_ne, ne_eq] at hkeep
  simp [hkeep]

/-! ## Inversion of `free_result` -/

/-- A defined `free_result` call is the cleanup phase followed by the
terminal marking of the struct. -/
theorem free_result_eq (h : Heap) (r : Result) (h2 : Heap) (r2 : Result)
    (hf : free_result h r = some (h2, r2)) :
    free_result_cleanup h r = some h2 ∧
    r2 = { r with code := ERR_INVALID_STATE, owns_memory := false } := by
  unfold free_result at hf
  cases hc : free_result_cleanup h r with
  | none => rw [hc] at hf; cases hf
  | some h3 =>
    rw [hc] at hf
    simp only [Option.map_some'] at hf
    injection hf with hf
    injection hf with hf1 hf2
    exact ⟨by rw [hf1], hf2.symm⟩

/-! ## Claims -/

/-- C3: for every code `c` and non-absent message at address `a`, when
the allocation of the message copy inside `make_error` fails, the
constructed Result's code is `ERR_OUT_OF_MEMORY` regardless of the
requested `c`, its `message` member is `NULL` (absent), and
`result_get_error_message` on it yields the sentinel. -/
theorem c3_alloc_failure_overwrites_code (h : Heap) (c : Int) (a : Nat) (m : String)
    (ha : a ≠ 0) (hl : h.load a = some m) :
    make_error h false c a =
      some (h, { code := ERR_OUT_OF_MEMORY, value_type := RESULT_TYPE_NONE,
                 owns_memory := true, data := UnionData.message 0 }) ∧
    result_get_error_message h
        { code := ERR_OUT_OF_MEMORY, value_type := RESULT_TYPE_NONE,
          owns_memory := true, data := UnionData.message 0 } = some "No error message" := by
  constructor
  · unfold make_error
    rw [if_neg ha, hl]
    rfl
  · rfl

/-- Witness for C3 at a concrete heap holding the buffer "boom" at
address 1: the requested code `-6` is replaced by `ERR_OUT_OF_MEMORY`. -/
theorem c3_alloc_failure_overwrites_code_witness :
    make_error (Heap.mk 2 [(1, "boom")] [] []) false (-6) 1 =
      some (Heap.mk 2 [(1, "boom")] [] [],
            { code := ERR_OUT_OF_MEMORY, value_type := RESULT_TYPE_NONE,
              owns_memory := true, data := UnionData.message 0 }) :=
  (c3_alloc_failure_overwrites_code (Heap.mk 2 [(1, "boom")] [] []) (-6) 1 "boom"
    (by decide) rfl).1

/-- C5: whenever `free_result` is defined, the returned Result has code
`ERR_INVALID_STATE`, a cleared ownership flag, and is no longer a
success — regardless of what the Result was before the call. -/
theorem c5_free_result_terminal_state (h : Heap) (r : Result) (h2 : Heap) (r2 : Result)
    (hf : free_result h r = some (h2, r2)) :
    r2.code = ERR_INVALID_STATE ∧ r2.owns_memory = false ∧
      is_result_success r2 = false := by
  obtain ⟨-, hr2⟩ := free_result_eq h r h2 r2 hf
  subst hr2
  exact ⟨rfl, rfl, rfl⟩

/-- Witness for C5: releasing a concrete int-success Result. -/
theorem c5_free_result_terminal_state_witness :
    (Result.mk ERR_INVALID_STATE RESULT_TYPE_INT false (UnionData.int_val 5)).code =
        ERR_INVALID_STATE ∧
    (Result.mk ERR_INVALID_STATE RESULT_TYPE_INT false (UnionData.int_val 5)).owns_memory =
        false ∧
    is_result_success
        (Result.mk ERR_INVALID_STATE RESULT_TYPE_INT false (UnionData.int_val 5)) = false :=
  c5_free_result_terminal_state (Heap.mk 1 [] [] []) (make_success_int 5)
    (Heap.mk 1 [] [] [])
    (Result.mk ERR_INVALID_STATE RESULT_TYPE_INT false (UnionData.int_val 5)) rfl

/-- C4: a second `free_result` on an already-released Result is inert:
it returns the heap unchanged (so the free log and the destructor log do
not grow — no deallocation and no destructor call happens) and leaves
the Result in the same terminal state. -/
theorem c4_double_free_is_noop (h : Heap) (r : Result) (h2 : Heap) (r2 : Result)
    (hf : free_result h r = some (h2, r2)) :
    free_result h2 r2 = some (h2, r2) := by
  obtain ⟨-, hr2⟩ := free_result_eq h r h2 r2 hf
  subst hr2
  rfl

/-- Witness for C4: double release of a concrete int-success Result. -/
theorem c4_double_free_is_noop_witness :
    free_result (Heap.mk 1 [] [] [])
        (Result.mk ERR_INVALID_STATE RESULT_TYPE_INT false (UnionData.int_val 5)) =
      some (Heap.mk 1 [] [] [],
            Result.mk ERR_INVALID_STATE RESULT_TYPE_INT false (UnionData.int_val 5)) :=
  c4_double_free_is_noop (Heap.mk 1 [] [] []) (make_success_int 5)
    (Heap.mk 1 [] [] [])
    (Result.mk ERR_INVALID_STATE RESULT_TYPE_INT false (UnionData.int_val 5)) rfl

/-- C8: `result_transfer_ownership` sets the ownership flag to `b` and
changes nothing else about the Result (code, tag and union payload are
untouched; the function does not touch the heap at all, so no
deallocation or reallocation can occur). -/
theorem c8_transfer_ownership_frame (r : Result) (b : Bool) :
    (result_transfer_ownership r b).owns_memory = b ∧
    (result_transfer_ownership r b).code = r.code ∧
    (result_transfer_ownership r b).value_type = r.value_type ∧
    (result_transfer_ownership r b).data = r.data :=
  ⟨rfl, rfl, rfl, rfl⟩

/-- C9: every scalar-kind success constructor sets the ownership flag to
`false`, and even after `result_transfer_ownership` forces the flag to
`true`, `free_result` on a scalar-kind success Result performs no payload
deallocation at all: it returns the heap completely unchanged (free and
destructor logs included) and only marks the Result terminal.  Ownership
is a no-op for scalar kinds (the switch's `default` branch). -/
theorem c9_scalar_ownership_is_noop :
    ((∀ v, (make_success_int v).owns_memory = false) ∧
     (∀ v, (make_success_long v).owns_memory = false) ∧
     (∀ v, (make_success_float v).owns_memory = false) ∧
     (∀ v, (make_success_double v).owns_memory = false) ∧
     (∀ v, (make_success_bool v).owns_memory = false) ∧
     (∀ v, (make_success_char v).owns_memory = false) ∧
     (∀ v, (make_success_short v).owns_memory = false) ∧
     (∀ v, (make_success_uint v).owns_memory = false) ∧
     (∀ v, (make_success_ulong v).owns_memory = false) ∧
     (∀ v, (make_success_size_t v).owns_memory = false) ∧
     (∀ v, (make_success_int8 v).owns_memory = false) ∧
     (∀ v, (make_success_uint8 v).owns_memory = false) ∧
     (∀ v, (make_success_int16 v).owns_memory = false) ∧
     (∀ v, (make_success_uint16 v).owns_memory = false) ∧
     (∀ v, (make_success_int32 v).owns_memory = false) ∧
     (∀ v, (make_success_uint32 v).owns_memory = false) ∧
     (∀ v, (make_success_int64 v).owns_memory = false) ∧
     (∀ v, (make_success_uint64 v).owns_memory = false)) ∧
    ((∀ (h : Heap) v,
        free_result h (result_transfer_ownership (make_success_int v) true) =
          some (h, { code := ERR_INVALID_STATE, value_type := RESULT_TYPE_INT,
                     owns_memory := false, data := UnionData.int_val v })) ∧
     (∀ (h : Heap) v,
        free_result h (result_transfer_ownership (make_success_long v) true) =
          some (h, { code := ERR_INVALID_STATE, value_type := RESULT_TYPE_LONG,
                     owns_memory := false, data := UnionData.long_val v })) ∧
     (∀ (h : Heap) v,
        free_result h (result_transfer_ownership (make_success_float v) true) =
          some (h, { code := ERR_INVALID_STATE, value_type := RESULT_TYPE_FLOAT,
                     owns_memory := false, data := UnionData.float_val v })) ∧
     (∀ (h : Heap) v,
        free_result h (result_transfer_ownership (make_success_double v) true) =
          some (h, { code := ERR_INVALID_STATE, value_type := RESULT_TYPE_DOUBLE,
                     owns_memory := false, data := UnionData.double_val v })) ∧
     (∀ (h : Heap) v,
        free_result h (result_transfer_ownership (make_success_bool v) true) =
          some (h, { code := ERR_INVALID_STATE, value_type := RESULT_TYPE_BOOL,
                     owns_memory := false, data := UnionData.bool_val v })) ∧
     (∀ (h : Heap) v,
        free_result h (result_transfer_ownership (make_success_char v) true) =
          some (h, { code := ERR_INVALID_STATE, value_type := RESULT_TYPE_CHAR,
                     owns_memory := false, data := UnionData.char_val v })) ∧
     (∀ (h : Heap) v,
        free_result h (result_transfer_ownership (make_success_short v) true) =
          some (h, { code := ERR_INVALID_STATE, value_type := RESULT_TYPE_SHORT,
                     owns_memory := false, data := UnionData.short_val v })) ∧
     (∀ (h : Heap) v,
        free_result h (result_transfer_ownership (make_success_uint v) true) =
          some (h, { code := ERR_INVALID_STATE, value_type := RESULT_TYPE_UINT,
                     owns_memory := false, data := UnionData.uint_val v })) ∧
     (∀ (h : Heap) v,
        free_result h (result_transfer_ownership (make_success_ulong v) true) =
          some (h, { code := ERR_INVALID_STATE, value_type := RESULT_TYPE_ULONG,
                     owns_memory := false, data := UnionData.ulong_val v })) ∧
     (∀ (h : Heap) v,
        free_result h (result_transfer_ownership (make_success_size_t v) true) =
          some (h, { code := ERR_INVALID_STATE, value_type := RESULT_TYPE_SIZE_T,
                     owns_memory := false, data := UnionData.size_val v })) ∧
     (∀ (h : Heap) v,
        free_result h (result_transfer_ownership (make_success_int8 v) true) =
          some (h, { code := ERR_INVALID_STATE, value_type := RESULT_TYPE_INT8,
                     owns_memory := false, data := UnionData.int8_val v })) ∧
     (∀ (h : Heap) v,
        free_result h (result_transfer_ownership (make_success_uint8 v) true) =
          some (h, { code := ERR_INVALID_STATE, value_type := RESULT_TYPE_UINT8,
                     owns_memory := false, data := UnionData.uint8_val v })) ∧
     (∀ (h : Heap) v,
        free_result h (result_transfer_ownership (make_success_int16 v) true) =
          some (h, { code := ERR_INVALID_STATE, value_type := RESULT_TYPE_INT16,
                     owns_memory := false, data := UnionData.int16_val v })) ∧
     (∀ (h : Heap) v,
        free_result h (result_transfer_ownership (make_success_uint16 v) true) =
          some (h, { code := ERR_INVALID_STATE, value_type := RESULT_TYPE_UINT16,
                     owns_memory := false, data := UnionData.uint16_val v })) ∧
     (∀ (h : Heap) v,
        free_result h (result_transfer_ownership (make_success_int32 v) true) =
          some (h, { code := ERR_INVALID_STATE, value_type := RESULT_TYPE_INT32,
                     owns_memory := false, data := UnionData.int32_val v })) ∧
     (∀ (h : Heap) v,
        free_result h (result_transfer_ownership (make_success_uint32 v) true) =
          some (h, { code := ERR_INVALID_STATE, value_type := RESULT_TYPE_UINT32,
                     owns_memory := false, data := UnionData.uint32_val v })) ∧
     (∀ (h : Heap) v,
        free_result h (result_transfer_ownership (make_success_int64 v) true) =
          some (h, { code := ERR_INVALID_STATE, value_type := RESULT_TYPE_INT64,
                     owns_memory := false, data := UnionData.int64_val v })) ∧
     (∀ (h : Heap) v,
        free_result h (result_transfer_ownership (make_success_uint64 v) true) =
          some (h, { code := ERR_INVALID_STATE, value_type := RESULT_TYPE_UINT64,
                     owns_memory := false, data := UnionData.uint64_val v }))) :=
  ⟨⟨fun _ => rfl, fun _ => rfl, fun _ => rfl, fun _ => rfl, fun _ => rfl, fun _ => rfl,
    fun _ => rfl, fun _ => rfl, fun _ => rfl, fun _ => rfl, fun _ => rfl, fun _ => rfl,
    fun _ => rfl, fun _ => rfl, fun _ => rfl, fun _ => rfl, fun _ => rfl, fun _ => rfl⟩,
   ⟨fun _ _ => rfl, fun _ _ => rfl, fun _ _ => rfl, fun _ _ => rfl, fun _ _ => rfl,
    fun _ _ => rfl, fun _ _ => rfl, fun _ _ => rfl, fun _ _ => rfl, fun _ _ => rfl,
    fun _ _ => rfl, fun _ _ => rfl, fun _ _ => rfl, fun _ _ => rfl, fun _ _ => rfl,
    fun _ _ => rfl, fun _ _ => rfl, fun _ _ => rfl⟩⟩

/-- C7: releasing `make_success_custom(d, destructor, true)` invokes the
destructor exactly once with `d` (the destructor log grows by exactly
that one entry, the free log does not grow: no other deallocation of `d`
happens); when no destructor was supplied, plain deallocation of `d`
happens exactly once instead (one `free(d)` logged, block removed, no
destructor invoked). -/
theorem c7_custom_destructor_once :
    (∀ (h : Heap) (d f : Nat),
       free_result h (make_success_custom d (some f) true) =
         some ({ nextAddr := h.nextAddr, mem := h.mem, freeLog := h.freeLog,
                 dtorLog := h.dtorLog ++ [(f, d)] },
               { code := ERR_INVALID_STATE, value_type := RESULT_TYPE_CUSTOM,
                 owns_memory := false, data := UnionData.custom d (some f) })) ∧
    (∀ (h : Heap) (d : Nat) (m : String), d ≠ 0 → h.load d = some m →
       free_result h (make_success_custom d none true) =
         some ({ nextAddr := h.nextAddr, mem := h.mem.filter (fun e => e.1 != d),
                 freeLog := h.freeLog ++ [d], dtorLog := h.dtorLog },
               { code := ERR_INVALID_STATE, value_type := RESULT_TYPE_CUSTOM,
                 owns_memory := false, data := UnionData.custom d none }) ∧
       ({ nextAddr := h.nextAddr, mem := h.mem.filter (fun e => e.1 != d),
          freeLog := h.freeLog ++ [d], dtorLog := h.dtorLog } : Heap).load d = none) := by
  constructor
  · intro h d f
    rfl
  · intro h d m hd hl
    constructor
    · have hcleanup : free_result_cleanup h (make_success_custom d none true) = h.free d := rfl
      unfold free_result
      rw [hcleanup, Heap.free_of_load hd hl]
      rfl
    · simp [Heap.load, find?_filter_self]

/-- Witness for C7 (destructor-absent part) at a concrete heap holding a
block at address 3: `free(3)` is logged exactly once. -/
theorem c7_custom_destructor_once_witness :
    free_result (Heap.mk 4 [(3, "payload")] [7] []) (make_success_custom 3 none true) =
      some (Heap.mk 4 [] [7, 3] [],
            { code := ERR_INVALID_STATE, value_type := RESULT_TYPE_CUSTOM,
              owns_memory := false, data := UnionData.custom 3 none }) :=
  (c7_custom_destructor_once.2 (Heap.mk 4 [(3, "payload")] [7] []) 3 "payload"
    (by decide) rfl).1

/-- C6: for pointer-like success Results, `free_result` deallocates the
payload exactly when the ownership flag is `true` at release time.
Constructing with `owns_memory = false` and transferring ownership to
`true` before release deallocates the payload exactly once (one `free`
logged — or, for a Custom payload with a destructor, exactly one
destructor invocation); constructing with `owns_memory = true` and
transferring to `false` before release leaves the heap completely
untouched. -/
theorem c6_ownership_round_trip :
    (∀ (h : Heap) (p : Nat) (m : String), p ≠ 0 → h.load p = some m →
       free_result h (result_transfer_ownership (make_success_ptr p false) true) =
         some ({ nextAddr := h.nextAddr, mem := h.mem.filter (fun e => e.1 != p),
                 freeLog := h.freeLog ++ [p], dtorLog := h.dtorLog },
               { code := ERR_INVALID_STATE, value_type := RESULT_TYPE_POINTER,
                 owns_memory := false, data := UnionData.pointer p }) ∧
       ({ nextAddr := h.nextAddr, mem := h.mem.filter (fun e => e.1 != p),
          freeLog := h.freeLog ++ [p], dtorLog := h.dtorLog } : Heap).load p = none) ∧
    (∀ (h : Heap) (p : Nat),
       free_result h (result_transfer_ownership (make_success_ptr p true) false) =
         some (h, { code := ERR_INVALID_STATE, value_type := RESULT_TYPE_POINTER,
                    owns_memory := false, data := UnionData.pointer p })) ∧
    (∀ (h : Heap) (p : Nat) (m : String), p ≠ 0 → h.load p = some m →
       free_result h (result_transfer_ownership (make_success_string p false) true) =
         some ({ nextAddr := h.nextAddr, mem := h.mem.filter (fun e => e.1 != p),
                 freeLog := h.freeLog ++ [p], dtorLog := h.dtorLog },
               { code := ERR_INVALID_STATE, value_type := RESULT_TYPE_STRING,
                 owns_memory := false, data := UnionData.string p }) ∧
       ({ nextAddr := h.nextAddr, mem := h.mem.filter (fun e => e.1 != p),
          freeLog := h.freeLog ++ [p], dtorLog := h.dtorLog } : Heap).load p = none) ∧
    (∀ (h : Heap) (p : Nat),
       free_result h (result_transfer_ownership (make_success_string p true) false) =
         some (h, { code := ERR_INVALID_STATE, value_type := RESULT_TYPE_STRING,
                    owns_memory := false, data := UnionData.string p })) ∧
    (∀ (h : Heap) (d : Nat) (m : String), d ≠ 0 → h.load d = some m →
       free_result h (result_transfer_ownership (make_success_custom d none false) true) =
         some ({ nextAddr := h.nextAddr, mem := h.mem.filter (fun e => e.1 != d),
                 freeLog := h.freeLog ++ [d], dtorLog := h.dtorLog },
               { code := ERR_INVALID_STATE, value_type := RESULT_TYPE_CUSTOM,
                 owns_memory := false, data := UnionData.custom d none })) ∧
    (∀ (h : Heap) (d f : Nat),
       free_result h (result_transfer_ownership (make_success_custom d (some f) false) true) =
         some ({ nextAddr := h.nextAddr, mem := h.mem, freeLog := h.freeLog,
                 dtorLog := h.dtorLog ++ [(f, d)] },
               { code := ERR_INVALID_STATE, value_type := RESULT_TYPE_CUSTOM,
                 owns_memory := false, data := UnionData.custom d (some f) })) ∧
    (∀ (h : Heap) (d : Nat),
       free_result h (result_transfer_ownership (make_success_custom d none true) false) =
         some (h, { code := ERR_INVALID_STATE, value_type := RESULT_TYPE_CUSTOM,
                    owns_memory := false, data := UnionData.custom d none })) ∧
    (∀ (h : Heap) (d f : Nat),
       free_result h (result_transfer_ownership (make_success_custom d (some f) true) false) =
         some (h, { code := ERR_INVALID_STATE, value_type := RESULT_TYPE_CUSTOM,
                    owns_memory := false, data := UnionData.custom d (some f) })) := by
  refine ⟨?_, fun _ _ => rfl, ?_, fun _ _ => rfl, ?_, fun _ _ _ => rfl,
    fun _ _ => rfl, fun _ _ _ => rfl⟩
  · intro h p m hp hl
    constructor
    · have hcleanup :
          free_result_cleanup h (result_transfer_ownership (make_success_ptr p false) true) =
            h.free p := rfl
      unfold free_result
      rw [hcleanup, Heap.free_of_load hp hl]
      rfl
    · simp [Heap.load, find?_filter_self]
  · intro h p m hp hl
    constructor
    · have hcleanup :
          free_result_cleanup h (result_transfer_ownership (make_success_string p false) true) =
            h.free p := rfl
      unfold free_result
      rw [hcleanup, Heap.free_of_load hp hl]
      rfl
    · simp [Heap.load, find?_filter_self]
  · intro h d m hd hl
    have hcleanup :
        free_result_cleanup h (result_transfer_ownership (make_success_custom d none false) true) =
          h.free d := rfl
    unfold free_result
    rw [hcleanup, Heap.free_of_load hd hl]
    rfl

/-- Witness for C6: the pointer round-trip at a concrete heap holding a
block at address 2; transfer-to-true then release frees exactly once. -/
theorem c6_ownership_round_trip_witness :
    free_result (Heap.mk 3 [(2, "blk")] [] [])
        (result_transfer_ownership (make_success_ptr 2 false) true) =
      some (Heap.mk 3 [] [2] [],
            { code := ERR_INVALID_STATE, value_type := RESULT_TYPE_POINTER,
              owns_memory := false, data := UnionData.pointer 2 }) :=
  (c6_ownership_round_trip.1 (Heap.mk 3 [(2, "blk")] [] []) 2 "blk" (by decide) rfl).1

/-- C2: for every non-zero code `c` and message buffer `m` at address
`a` (and also for an absent message), a successful-allocation
`make_error` yields a non-success Result whose error message reads back
as `m`'s content (or the sentinel when absent), owns its message, and
whose stored message is an independent copy: overwriting or freeing the
caller's original buffer afterwards does not change what
`result_get_error_message` returns. -/
theorem c2_make_error_independent_copy :
    (∀ (h : Heap) (c : Int) (a : Nat) (m : String),
       h.WF = true → c ≠ 0 → h.load a = some m →
       make_error h true c a =
         some ({ nextAddr := h.nextAddr + 1, mem := (h.nextAddr, m) :: h.mem,
                 freeLog := h.freeLog, dtorLog := h.dtorLog },
               { code := c, value_type := RESULT_TYPE_NONE, owns_memory := true,
                 data := UnionData.message h.nextAddr }) ∧
       is_result_success
           { code := c, value_type := RESULT_TYPE_NONE, owns_memory := true,
             data := UnionData.message h.nextAddr } = false ∧
       result_get_error_message
           { nextAddr := h.nextAddr + 1, mem := (h.nextAddr, m) :: h.mem,
             freeLog := h.freeLog, dtorLog := h.dtorLog }
           { code := c, value_type := RESULT_TYPE_NONE, owns_memory := true,
             data := UnionData.message h.nextAddr } = some m ∧
       (∀ (m2 : String) (h3 : Heap),
          Heap.store { nextAddr := h.nextAddr + 1, mem := (h.nextAddr, m) :: h.mem,
                       freeLog := h.freeLog, dtorLog := h.dtorLog } a m2 = some h3 →
          result_get_error_message h3
            { code := c, value_type := RESULT_TYPE_NONE, owns_memory := true,
              data := UnionData.message h.nextAddr } = some m) ∧
       (∀ (h3 : Heap),
          Heap.free { nextAddr := h.nextAddr + 1, mem := (h.nextAddr, m) :: h.mem,
                      freeLog := h.freeLog, dtorLog := h.dtorLog } a = some h3 →
          result_get_error_message h3
            { code := c, value_type := RESULT_TYPE_NONE, owns_memory := true,
              data := UnionData.message h.nextAddr } = some m)) ∧
    (∀ (h : Heap) (ok : Bool) (c : Int), c ≠ 0 →
       make_error h ok c 0 =
         some (h, { code := c, value_type := RESULT_TYPE_NONE, owns_memory := true,
                    data := UnionData.message 0 }) ∧
       is_result_success
           { code := c, value_type := RESULT_TYPE_NONE, owns_memory := true,
             data := UnionData.message 0 } = false ∧
       result_get_error_message h
           { code := c, value_type := RESULT_TYPE_NONE, owns_memory := true,
             data := UnionData.message 0 } = some "No error message") := by
  constructor
  · intro h c a m hwf hc hl
    obtain ⟨ha0, haLT⟩ := Heap.load_bounds_of_WF hwf hl
    have hs : is_result_success
        { code := c, value_type := RESULT_TYPE_NONE, owns_memory := true,
          data := UnionData.message h.nextAddr } = false := by
      simp [is_result_success, SUCCESS, hc]
    obtain ⟨n, hn⟩ : ∃ n, h.nextAddr = n + 1 := by
      have := Heap.nextAddr_pos_of_WF hwf
      exact ⟨h.nextAddr - 1, by omega⟩
    have hne : h.nextAddr ≠ a := by omega
    have hl2 : Heap.load
        { nextAddr := h.nextAddr + 1, mem := (h.nextAddr, m) :: h.mem,
          freeLog := h.freeLog, dtorLog := h.dtorLog } h.nextAddr = some m := by
      simp [Heap.load, List.find?_cons]
    have key : ∀ h4 : Heap, h4.load h.nextAddr = some m →
        result_get_error_message h4
          { code := c, value_type := RESULT_TYPE_NONE, owns_memory := true,
            data := UnionData.message h.nextAddr } = some m := by
      intro h4 hl4
      rw [hn] at hl4 ⊢
      simpa [result_get_error_message, is_result_success, SUCCESS, hc,
        UnionData.readPointerLike] using hl4
    refine ⟨?_, hs, key _ hl2, ?_, ?_⟩
    · unfold make_error
      rw [if_neg (by omega : ¬ a = 0), hl]
      rfl
    · intro m2 h3 hst
      exact key h3 (by rw [Heap.load_store_of_ne hst hne]; exact hl2)
    · intro h3 hfr
      exact key h3 (by rw [Heap.load_free_of_ne hfr hne]; exact hl2)
  · intro h ok c hc
    have hs : is_result_success
        { code := c, value_type := RESULT_TYPE_NONE, owns_memory := true,
          data := UnionData.message 0 } = false := by
      simp [is_result_success, SUCCESS, hc]
    refine ⟨rfl, hs, ?_⟩
    simp [result_get_error_message, hs, UnionData.readPointerLike]

/-- Witness for C2, realising the spec scenario
`make_error(-6, "File not found")` on a concrete heap whose address 1
holds the caller's buffer. -/
theorem c2_make_error_independent_copy_witness :
    make_error (Heap.mk 2 [(1, "File not found")] [] []) true (-6) 1 =
      some (Heap.mk 3 [(2, "File not found"), (1, "File not found")] [] [],
            { code := -6, value_type := RESULT_TYPE_NONE, owns_memory := true,
              data := UnionData.message 2 }) :=
  (c2_make_error_independent_copy.1 (Heap.mk 2 [(1, "File not found")] [] []) (-6) 1
    "File not found" rfl (by decide) rfl).1

/-- C10: `is_result_success` depends solely on whether the code is 0; in
particular `make_error(0, m)` — violating the non-zero-code caller
contract — produces a Result that `is_result_success` reports as a
success even though its value kind is the error marker
`RESULT_TYPE_NONE` and its payload slot holds the (copied) error
message. -/
theorem c10_success_is_code_zero :
    (∀ r : Result, is_result_success r = true ↔ r.code = 0) ∧
    (∀ (h : Heap) (a : Nat) (m : String), h.WF = true → h.load a = some m →
       make_error h true 0 a =
         some ({ nextAddr := h.nextAddr + 1, mem := (h.nextAddr, m) :: h.mem,
                 freeLog := h.freeLog, dtorLog := h.dtorLog },
               { code := 0, value_type := RESULT_TYPE_NONE, owns_memory := true,
                 data := UnionData.message h.nextAddr }) ∧
       is_result_success
           { code := 0, value_type := RESULT_TYPE_NONE, owns_memory := true,
             data := UnionData.message h.nextAddr } = true ∧
       Heap.load { nextAddr := h.nextAddr + 1, mem := (h.nextAddr, m) :: h.mem,
                   freeLog := h.freeLog, dtorLog := h.dtorLog } h.nextAddr = some m) := by
  constructor
  · intro r
    simp [is_result_success, SUCCESS]
  · intro h a m hwf hl
    obtain ⟨ha0, haLT⟩ := Heap.load_bounds_of_WF hwf hl
    refine ⟨?_, rfl, ?_⟩
    · unfold make_error
      rw [if_neg (by omega : ¬ a = 0), hl]
      rfl
    · simp [Heap.load, List.find?_cons]

/-- Witness for C10: `make_error(0, "oops")` on a concrete heap is
reported as a success. -/
theorem c10_success_is_code_zero_witness :
    is_result_success
        { code := 0, value_type := RESULT_TYPE_NONE, owns_memory := true,
          data := UnionData.message 2 } = true :=
  ((c10_success_is_code_zero.2 (Heap.mk 2 [(1, "oops")] [] []) 1 "oops" rfl rfl).2).1

/-- C1 counterexample: the claim "accessing a success Result of kind K
with the accessor for another kind returns the fixed default" is false
for the non-`DEBUG` accessors.  `make_success_string 5 false` has kind
String, yet `access_result_ptr` returns the stored address 5, not the
`NULL` default 0. -/
theorem c1_counterexample_kind_mismatch :
    access_result_ptr (make_success_string 5 false) = some 5 ∧
    access_result_ptr (make_success_string 5 false) ≠ some 0 :=
  ⟨rfl, by decide⟩

/-- C1 amended: for any success constructor of kind K with value v, the
accessor for K returns v, and every accessor returns its default on a
non-success Result; but only the `DEBUG`-mode `ACCESS_RESULT` macro
additionally checks the stored kind and returns the default on a
mismatch — the non-`DEBUG` `access_result_*` accessors check only
`is_result_success` and on a kind mismatch read the union member raw (in
particular the pointer-family accessors return the stored address of a
String/Pointer/Custom success). -/
theorem c1_accessors_amended :
    (∀ r : Result, is_result_success r = false →
       access_result_ptr r = some 0 ∧ access_result_string r = some 0 ∧
       access_result_int r = some 0 ∧ access_result_long r = some 0 ∧
       access_result_float r = some 0 ∧ access_result_double r = some 0 ∧
       access_result_bool r = some false ∧ access_result_char r = some 0 ∧
       access_result_short r = some 0 ∧ access_result_uint r = some 0 ∧
       access_result_ulong r = some 0 ∧ access_result_size_t r = some 0 ∧
       access_result_int8 r = some 0 ∧ access_result_uint8 r = some 0 ∧
       access_result_int16 r = some 0 ∧ access_result_uint16 r = some 0 ∧
       access_result_int32 r = some 0 ∧ access_result_uint32 r = some 0 ∧
       access_result_int64 r = some 0 ∧ access_result_uint64 r = some 0 ∧
       access_result_custom r = some 0) ∧
    (∀ (p : Nat) (b : Bool), access_result_ptr (make_success_ptr p b) = some p) ∧
    (∀ (s : Nat) (b : Bool), access_result_string (make_success_string s b) = some s) ∧
    (∀ v : Int, access_result_int (make_success_int v) = some v) ∧
    (∀ v : Int, access_result_long (make_success_long v) = some v) ∧
    (∀ v : Nat, access_result_float (make_success_float v) = some v) ∧
    (∀ v : Nat, access_result_double (make_success_double v) = some v) ∧
    (∀ v : Bool, access_result_bool (make_success_bool v) = some v) ∧
    (∀ v : Int, access_result_char (make_success_char v) = some v) ∧
    (∀ v : Int, access_result_short (make_success_short v) = some v) ∧
    (∀ v : Int, access_result_uint (make_success_uint v) = some v) ∧
    (∀ v : Int, access_result_ulong (make_success_ulong v) = some v) ∧
    (∀ v : Int, access_result_size_t (make_success_size_t v) = some v) ∧
    (∀ v : Int, access_result_int8 (make_success_int8 v) = some v) ∧
    (∀ v : Int, access_result_uint8 (make_success_uint8 v) = some v) ∧
    (∀ v : Int, access_result_int16 (make_success_int16 v) = some v) ∧
    (∀ v : Int, access_result_uint16 (make_success_uint16 v) = some v) ∧
    (∀ v : Int, access_result_int32 (make_success_int32 v) = some v) ∧
    (∀ v : Int, access_result_uint32 (make_success_uint32 v) = some v) ∧
    (∀ v : Int, access_result_int64 (make_success_int64 v) = some v) ∧
    (∀ v : Int, access_result_uint64 (make_success_uint64 v) = some v) ∧
    (∀ (d : Nat) (f : Option Nat) (b : Bool),
       access_result_custom (make_success_custom d f b) = some d) ∧
    (∀ (s : Nat) (b : Bool), access_result_ptr (make_success_string s b) = some s) ∧
    (∀ (p : Nat) (b : Bool), access_result_string (make_success_ptr p b) = some p) ∧
    (∀ (d : Nat) (f : Option Nat) (b : Bool),
       access_result_ptr (make_success_custom d f b) = some d) ∧
    (∀ (α : Type) (r : Result) (t : ResultValueType) (member : UnionData → Option α)
       (dv : α), ¬ (is_result_success r = true ∧ r.value_type = t) →
       ACCESS_RESULT r t member dv = some dv) ∧
    (∀ (α : Type) (r : Result) (t : ResultValueType) (member : UnionData → Option α)
       (dv : α), is_result_success r = true → r.value_type = t →
       ACCESS_RESULT r t member dv = member r.data) := by
  refine ⟨?_, fun _ _ => rfl, fun _ _ => rfl, fun _ => rfl, fun _ => rfl, fun _ => rfl,
    fun _ => rfl, fun _ => rfl, fun _ => rfl, fun _ => rfl, fun _ => rfl, fun _ => rfl,
    fun _ => rfl, fun _ => rfl, fun _ => rfl, fun _ => rfl, fun _ => rfl, fun _ => rfl,
    fun _ => rfl, fun _ => rfl, fun _ => rfl, fun _ _ _ => rfl,
    fun _ _ => rfl, fun _ _ => rfl, fun _ _ _ => rfl, ?_, ?_⟩
  · intro r hr
    simp [access_result_ptr, access_result_string, access_result_int, access_result_long,
      access_result_float, access_result_double, access_result_bool, access_result_char,
      access_result_short, access_result_uint, access_result_ulong, access_result_size_t,
      access_result_int8, access_result_uint8, access_result_int16, access_result_uint16,
      access_result_int32, access_result_uint32, access_result_int64, access_result_uint64,
      access_result_custom, hr]
  · intro α r t member dv hcond
    unfold ACCESS_RESULT
    rw [if_neg hcond]
  · intro α r t member dv h1 h2
    simp [ACCESS_RESULT, h1, h2]

/-- Witness for the amended C1: an error Result accessed with the int
accessor yields the default 0. -/
theorem c1_accessors_amended_witness :
    access_result_int
        { code := -1, value_type := RESULT_TYPE_NONE, owns_memory := true,
          data := UnionData.message 0 } = some 0 :=
  ((c1_accessors_amended.1
      { code := -1, value_type := RESULT_TYPE_NONE, owns_memory := true,
        data := UnionData.message 0 } rfl).2.2).1

end CResult
